import Mathlib

/-!
Verification development for the Smartlead MCP tool-call gateway.

The repository bundles several variants of the same gateway. The claims
are settled against the three variants they cite:

* `src/src/index.ts` (the plain stdio gateway; embedded below with the
  `index` name part): `SmartLeadClient.request`, the 51-tool schema
  registry, and the call-tool handler.
* the enhanced gateway variant (`part_006`): the `withRetry`
  retry/backoff helper, the `apiClient` axios instance with the api_key
  default query parameter, the 21 `smartlead_*` tools with typed
  argument guards, and its call-tool handler.
* the modular gateway variant (`part_005`): prefix-based dispatch to the
  campaign/lead/analytics/reply/webhook tool modules.

JavaScript objects are embedded as association lists of string keys and
`JValue`s; spread-and-overwrite (`\x7b...data, api_key: v\x7d`) is the
`jset` operation, property deletion is `jdelete`, member access of a
missing property yields the explicit `JValue.undefined` value, matching the
`undefined` JavaScript produces there.
-/

namespace SmartleadGateway

/-- JavaScript runtime values as they occur in the gateway: strings,
(integer) numbers, booleans, `null`, `undefined`, arrays, and objects.
Fractional floating-point values do not occur in the embedded code paths
except in analytics percentage formatting, which is kept abstract. -/
inductive JValue where
  | str (s : String)
  | num (n : Int)
  | bool (b : Bool)
  | null
  | undefined
  | arr (xs : List JValue)
  | obj (fields : List (String × JValue))
deriving Repr

/-- A JavaScript object: ordered fields, unique keys in practice. -/
abbrev JObj := List (String × JValue)

/-- Property lookup (`o[k]` when present): first binding wins. -/
def jget (o : JObj) (k : String) : Option JValue :=
  match o with
  | [] => none
  | kv :: rest => if kv.1 = k then some kv.2 else jget rest k

/-- Property access (`o.k`): a missing property reads as `undefined`. -/
def jgetV (o : JObj) (k : String) : JValue :=
  match jget o k with
  | some v => v
  | none => JValue.undefined

/-- Spread-and-assign (`\x7b...o, k: v\x7d`): overwrite the binding of `k`
in place if present, otherwise append it at the end, exactly as the
JavaScript object literal does. -/
def jset (o : JObj) (k : String) (v : JValue) : JObj :=
  match o with
  | [] => [(k, v)]
  | kv :: rest => if kv.1 = k then (k, v) :: jset rest k v else kv :: jset rest k v

/-- `delete o[k]` applied to a fresh copy of `o`. -/
def jdelete (o : JObj) (k : String) : JObj :=
  o.filter (fun kv => decide (kv.1 ≠ k))

/-- Object-literal merge (`\x7bbase fields, ...extra\x7d`): the fields of
`extra` overwrite those of `base`. -/
def jmerge (base extra : JObj) : JObj :=
  extra.foldl (fun acc kv => jset acc kv.1 kv.2) base

/-- `typeof v === "number"`. -/
def jIsNum : JValue → Bool
  | .num _ => true
  | _ => false

/-- `typeof v === "string"`. -/
def jIsStr : JValue → Bool
  | .str _ => true
  | _ => false

/-- `Array.isArray(v)`. -/
def jIsArr : JValue → Bool
  | .arr _ => true
  | _ => false

/-- `typeof v === "object"` for property values; note `typeof null`
is `"object"` in JavaScript. -/
def jIsObjLike : JValue → Bool
  | .obj _ => true
  | .null => true
  | .arr _ => true
  | _ => false

/-- JavaScript truthiness: `undefined`, `null`, `false`, `0` and `""`
are falsy, everything else truthy. -/
def jTruthy : JValue → Bool
  | .undefined => false
  | .null => false
  | .bool b => b
  | .num n => decide (n ≠ 0)
  | .str s => decide (s ≠ "")
  | .arr _ => true
  | .obj _ => true

/-- Template-literal string conversion of a value, as in
backtick-interpolated endpoint paths. -/
def jstr : JValue → String
  | .str s => s
  | .num n => toString n
  | .bool b => cond b "true" "false"
  | .null => "null"
  | .undefined => "undefined"
  | .arr _ => ""
  | .obj _ => "[object Object]"

/-- `v || w` (JavaScript logical or, by truthiness). -/
def jOr (v w : JValue) : JValue :=
  if jTruthy v then v else w

/-- `o.k1?.k2`-style member access on a value. -/
def jfield (v : JValue) (k : String) : JValue :=
  match v with
  | .obj o => jgetV o k
  | _ => .undefined

mutual

/-- `JSON.stringify` (indentation and string escaping are not modelled;
no claim inspects the exact serialized text). -/
def jsonStringify : JValue → String
  | .str s => "\"" ++ s ++ "\""
  | .num n => toString n
  | .bool b => cond b "true" "false"
  | .null => "null"
  | .undefined => "null"
  | .arr xs => "[" ++ jsonStringifyList xs ++ "]"
  | .obj o => "\x7b" ++ jsonStringifyFields o ++ "\x7d"

def jsonStringifyList : List JValue → String
  | [] => ""
  | [v] => jsonStringify v
  | v :: rest => jsonStringify v ++ "," ++ jsonStringifyList rest

def jsonStringifyFields : List (String × JValue) → String
  | [] => ""
  | [kv] => "\"" ++ kv.1 ++ "\":" ++ jsonStringify kv.2
  | kv :: rest => "\"" ++ kv.1 ++ "\":" ++ jsonStringify kv.2 ++ "," ++ jsonStringifyFields rest

end

/-- `sub` occurs as a substring of `s` (by explicit decomposition). -/
def containsStr (s sub : String) : Prop :=
  ∃ pre post, s = pre ++ sub ++ post

theorem jget_jset_self (o : JObj) (k : String) (v : JValue) :
    jget (jset o k v) k = some v := by
  induction o with
  | nil => simp [jset, jget]
  | cons kv rest ih =>
    by_cases h : kv.1 = k
    · simp [jset, h, jget]
    · simp [jset, h, jget, ih]

theorem mem_values_jset {o : JObj} {k : String} {v x : JValue}
    (hx : x ∈ (jset o k v).map Prod.snd) :
    x = v ∨ x ∈ o.map Prod.snd := by
  induction o with
  | nil => simpa [jset] using hx
  | cons kv rest ih =>
    by_cases h : kv.1 = k
    · simp only [jset, h, if_pos, List.map_cons, List.mem_cons] at hx
      rcases hx with h1 | h2
      · exact Or.inl h1
      · rcases ih (by simpa using h2) with h3 | h4
        · exact Or.inl h3
        · exact Or.inr (by simp [h4])
    · simp only [jset, h, if_neg, ite_false, List.map_cons, List.mem_cons] at hx
      rcases hx with h1 | h2
      · exact Or.inr (by simp [h1])
      · rcases ih (by simpa using h2) with h3 | h4
        · exact Or.inl h3
        · exact Or.inr (by simp [h4])

theorem not_mem_keys_jdelete (o : JObj) (k : String) :
    k ∉ (jdelete o k).map Prod.fst := by
  intro hmem
  simp [jdelete] at hmem

theorem jgetV_eq_undefined {o : JObj} {k : String} (h : jget o k = none) :
    jgetV o k = JValue.undefined := by
  simp [jgetV, h]

/-! ## Backend client of `src/src/index.ts` (`SmartLeadClient.request`)

The axios call is modelled at the boundary visible to the client code:
the network either yields an HTTP response (any status) or fails without
a response. Axios treats a status outside 200..299 as an error carrying
the response; on success it applies its default response transform,
which leaves an empty body untouched (returning the empty string) and
otherwise attempts a JSON parse, silently falling back to the raw text
(default `transitional.silentJSONParsing` behaviour). The development
is parametric in the JSON parser `parse`. -/

/-- An upstream HTTP response: status, status text and raw body text. -/
structure HttpResponse where
  status : Nat
  statusText : String
  body : String
deriving Repr

/-- What the network did for one attempt: a response, or no response
(connection failure / timeout). -/
inductive NetOutcome where
  | response (r : HttpResponse)
  | netfail (message : String)

/-- Axios default response transform: an empty body is returned as the
empty string without attempting a parse; otherwise JSON-parse and fall
back silently to the raw text. -/
def axiosTransform (parse : String → Option JValue) (body : String) : JValue :=
  if body = "" then .str ""
  else
    match parse body with
    | some v => v
    | none => .str body

/-- The axios error message for an HTTP error status. -/
def axiosMessage (r : HttpResponse) : String :=
  "Request failed with status code " ++ toString r.status

/-- The `empty-success` value `request` yields for a 204 / empty-body
success: the empty string the axios transform passes through. -/
def emptySuccess : JValue := .str ""

/-- Base URL of the upstream API (`SmartLeadClient.baseUrl`). -/
def baseUrl : String := "https://server.smartlead.ai/api/v1"

/-- The query parameters `request` sends
(`method === "GET" ? \x7b ...data, api_key \x7d : \x7b api_key \x7d`):
the credential always wins the `api_key` slot. -/
def requestParams (apiKey method : String) (data : JObj) : JObj :=
  if method = "GET" then jset data "api_key" (.str apiKey)
  else [("api_key", .str apiKey)]

/-- The only headers `request` sends; the credential is never a header. -/
def indexRequestHeaders : List (String × String) :=
  [("Content-Type", "application/json")]

/-- The `params` field of the diagnostic `errorDetails` object built in
the catch block: the `api_key` slot is overwritten with the literal
string REDACTED for GET, and is the lone redacted entry otherwise. -/
def redactedParams (method : String) (data : JObj) : JObj :=
  if method = "GET" then jset data "api_key" (.str "[REDACTED]")
  else [("api_key", .str "[REDACTED]")]

/-- The message the client throws for a non-404 failure:
`error.response?.data?.error || error.response?.data?.message ||
error.message`, evaluated on the transformed error body. -/
def apiErrText (parse : String → Option JValue) (r : HttpResponse) : String :=
  let d := axiosTransform parse r.body
  jstr (jOr (jfield d "error") (jOr (jfield d "message") (.str (axiosMessage r))))

/-- `SmartLeadClient.request` of `src/src/index.ts`: on a 2xx response
return the transformed body; on a 404 throw the endpoint-specific
message; on any other response or a network failure throw the
normalized `SmartLead API error` message. -/
def indexRequest (parse : String → Option JValue) (endpoint : String)
    (net : NetOutcome) : Except String JValue :=
  match net with
  | .response r =>
    if 200 ≤ r.status ∧ r.status < 300 then
      .ok (axiosTransform parse r.body)
    else if r.status = 404 then
      .error ("This Smartlead API endpoint does not exist: " ++ endpoint)
    else
      .error ("SmartLead API error: " ++ apiErrText parse r)
  | .netfail msg => .error ("SmartLead API error: " ++ msg)

/-- Default query parameters of the `apiClient` axios instance in the
enhanced gateway variant: the credential as an `api_key` query
parameter on every request issued through the instance. -/
def apiClientDefaultParams (apiKey : String) : JObj :=
  [("api_key", .str apiKey)]

/-- Headers configured on the `apiClient` axios instance. -/
def apiClientHeaders : List (String × String) :=
  [("Content-Type", "application/json")]

/-! ## Tool registry and call-tool handler of `src/src/index.ts`

The `toolSchemas` constant is embedded as the ordered list of tool names
with their declared `required` property lists (descriptions and property
types play no role in any claim and are omitted). The switch statement
of the call-tool handler is embedded as an ordered name-to-case table;
every case performs exactly one `SmartLeadClient` method call, which
bottoms out in one `request(endpoint, method, data)` invocation,
recorded as an `IndexCall`. -/

/-- One `SmartLeadClient.request` invocation as issued by the handler. -/
structure IndexCall where
  endpoint : String
  method : String
  data : JObj
deriving Repr

/-- First-match lookup in an ordered name-indexed table (the semantics
of a `switch` over distinct string literals). -/
def lookupFn {α : Type} (l : List (String × α)) (k : String) : Option α :=
  match l with
  | [] => none
  | kv :: rest => if kv.1 = k then some kv.2 else lookupFn rest k

/-- Template interpolation of a parameter into an endpoint path. -/
def pathStr (params : JObj) (k : String) : String :=
  jstr (jgetV params k)

/-- A JavaScript default parameter value: used when the argument is
`undefined`. -/
def jDefault (params : JObj) (k : String) (d : JValue) : JValue :=
  match jgetV params k with
  | .undefined => d
  | v => v

/-- The `\x7b name, description, inputSchema \x7d` catalog `toolSchemas`,
reduced to the name and the declared `required` list of each tool, in
declaration order. -/
def indexToolRegistry : List (String × List String) :=
  [ ("list_campaigns", []),
    ("get_campaign", ["campaign_id"]),
    ("create_campaign", ["name"]),
    ("update_campaign", ["campaign_id"]),
    ("delete_campaign", ["campaign_id"]),
    ("get_campaign_schedules", ["campaign_id"]),
    ("update_campaign_schedule", ["campaign_id"]),
    ("update_campaign_settings", ["campaign_id"]),
    ("update_campaign_status", ["campaign_id", "status"]),
    ("save_campaign_sequence", ["campaign_id", "sequences"]),
    ("get_campaign_sequence", ["campaign_id"]),
    ("get_campaigns_by_lead", ["lead_id"]),
    ("export_campaign_data", ["campaign_id"]),
    ("get_campaign_analytics_by_date", ["campaign_id", "start_date", "end_date"]),
    ("get_campaign_statistics", ["campaign_id"]),
    ("add_leads_to_campaign", ["campaign_id", "leads"]),
    ("get_leads_from_campaign", ["campaign_id"]),
    ("update_lead", ["campaign_id", "lead_id"]),
    ("delete_lead", ["campaign_id", "lead_id"]),
    ("get_lead_by_email", ["email"]),
    ("get_lead_categories", []),
    ("update_lead_category", ["campaign_id", "lead_id", "category_id"]),
    ("pause_lead", ["campaign_id", "lead_id"]),
    ("resume_lead", ["campaign_id", "lead_id"]),
    ("unsubscribe_lead_from_campaign", ["campaign_id", "lead_id"]),
    ("unsubscribe_lead_global", ["lead_id"]),
    ("get_all_leads", []),
    ("get_blocklist", []),
    ("add_to_blocklist", ["domains"]),
    ("get_message_history", ["campaign_id", "lead_id"]),
    ("reply_to_lead", ["campaign_id", "email_stats_id", "email_body",
      "reply_message_id", "reply_email_time", "reply_email_body"]),
    ("get_campaign_analytics", ["campaign_id"]),
    ("get_email_account_analytics", []),
    ("get_master_inbox_stats", []),
    ("get_email_accounts", []),
    ("get_email_account", ["account_id"]),
    ("create_email_account", ["from_name", "from_email", "user_name",
      "password", "smtp_host", "smtp_port"]),
    ("update_email_account", ["account_id"]),
    ("get_campaign_email_accounts", ["campaign_id"]),
    ("add_email_to_campaign", ["campaign_id", "email_account_ids"]),
    ("remove_email_from_campaign", ["campaign_id", "email_account_ids"]),
    ("update_warmup", ["account_id", "warmup_enabled"]),
    ("get_warmup_stats", ["account_id"]),
    ("reconnect_failed_accounts", []),
    ("send_reply", ["campaign_id", "lead_email", "message"]),
    ("get_conversations", []),
    ("list_webhooks", ["campaign_id"]),
    ("create_webhook", ["campaign_id", "name", "webhook_url", "event_types"]),
    ("delete_webhook", ["campaign_id", "webhook_id"]),
    ("create_client", ["name", "email", "password", "permission"]),
    ("list_clients", []) ]

/-- The tool names advertised by `src/src/index.ts`, in order. -/
def indexToolNames : List String :=
  indexToolRegistry.map Prod.fst

/-- Declared required properties of a tool of `src/src/index.ts`. -/
def indexRequiredOf (name : String) : Option (List String) :=
  lookupFn indexToolRegistry name

/-- The `update_campaign` switch case of `src/src/index.ts`: the whole
`params` object (still holding `campaign_id`) is forwarded as the PUT
body via `client.updateCampaign(params.campaign_id, params)`. -/
def updateCampaignCase (p : JObj) : IndexCall :=
  ⟨"/campaigns/" ++ pathStr p "campaign_id", "PUT", p⟩

/-- The switch cases of the call-tool handler of `src/src/index.ts`:
for each tool name, the single `request` invocation the case performs,
as a function of the `params` argument object. Path parameters are
interpolated raw (`params.campaign_id` of a missing property reads as
`undefined` and prints as the string `undefined`). -/
def indexTable : List (String × (JObj → IndexCall)) :=
  [ ("list_campaigns", fun _ => ⟨"/campaigns", "GET", []⟩),
    ("get_campaign", fun p => ⟨"/campaigns/" ++ pathStr p "campaign_id", "GET", []⟩),
    ("create_campaign", fun p => ⟨"/campaigns/create", "POST", p⟩),
    ("update_campaign", updateCampaignCase),
    ("delete_campaign", fun p =>
      ⟨"/campaigns/" ++ pathStr p "campaign_id", "DELETE", []⟩),
    ("get_campaign_schedules", fun p =>
      ⟨"/campaigns/" ++ pathStr p "campaign_id" ++ "/schedules", "GET", []⟩),
    ("update_campaign_schedule", fun p =>
      ⟨"/campaigns/" ++ pathStr p "campaign_id" ++ "/schedule", "POST", p⟩),
    ("update_campaign_settings", fun p =>
      ⟨"/campaigns/" ++ pathStr p "campaign_id" ++ "/settings", "POST", p⟩),
    ("update_campaign_status", fun p =>
      ⟨"/campaigns/" ++ pathStr p "campaign_id" ++ "/status", "POST",
        [("status", jgetV p "status")]⟩),
    ("save_campaign_sequence", fun p =>
      ⟨"/campaigns/" ++ pathStr p "campaign_id" ++ "/sequences", "POST",
        [("sequences", jgetV p "sequences")]⟩),
    ("get_campaign_sequence", fun p =>
      ⟨"/campaigns/" ++ pathStr p "campaign_id" ++ "/sequences", "GET", []⟩),
    ("get_campaigns_by_lead", fun p =>
      ⟨"/leads/" ++ pathStr p "lead_id" ++ "/campaigns", "GET", []⟩),
    ("export_campaign_data", fun p =>
      ⟨"/campaigns/" ++ pathStr p "campaign_id" ++ "/leads-export", "GET", []⟩),
    ("get_campaign_analytics_by_date", fun p =>
      ⟨"/campaigns/" ++ pathStr p "campaign_id" ++ "/analytics-by-date", "GET",
        [("start_date", jgetV p "start_date"), ("end_date", jgetV p "end_date")]⟩),
    ("get_campaign_statistics", fun p =>
      ⟨"/campaigns/" ++ pathStr p "campaign_id" ++ "/statistics", "GET",
        jdelete p "campaign_id"⟩),
    ("add_leads_to_campaign", fun p =>
      ⟨"/campaigns/" ++ pathStr p "campaign_id" ++ "/leads", "POST",
        [("lead_list", jgetV p "leads")] ++
          (if jTruthy (jgetV p "settings") then [("settings", jgetV p "settings")]
           else [])⟩),
    ("get_leads_from_campaign", fun p =>
      ⟨"/campaigns/" ++ pathStr p "campaign_id" ++ "/leads", "GET",
        [("offset", jDefault p "offset" (.num 0)),
         ("limit", jDefault p "limit" (.num 100))]⟩),
    ("update_lead", fun p =>
      ⟨"/campaigns/" ++ pathStr p "campaign_id" ++ "/leads/" ++
          pathStr p "lead_id", "POST",
        jdelete (jdelete p "campaign_id") "lead_id"⟩),
    ("delete_lead", fun p =>
      ⟨"/campaigns/" ++ pathStr p "campaign_id" ++ "/leads/" ++
          pathStr p "lead_id", "DELETE", []⟩),
    ("get_lead_by_email", fun p =>
      ⟨"/leads", "GET", [("email", jgetV p "email")]⟩),
    ("get_lead_categories", fun _ => ⟨"/leads/fetch-categories", "GET", []⟩),
    ("update_lead_category", fun p =>
      ⟨"/campaigns/" ++ pathStr p "campaign_id" ++ "/leads/" ++
          pathStr p "lead_id" ++ "/category", "POST",
        [("category_id", jgetV p "category_id"),
         ("pause_lead", jDefault p "pause_lead" (.bool false))]⟩),
    ("pause_lead", fun p =>
      ⟨"/campaigns/" ++ pathStr p "campaign_id" ++ "/leads/" ++
          pathStr p "lead_id" ++ "/pause", "POST", []⟩),
    ("resume_lead", fun p =>
      ⟨"/campaigns/" ++ pathStr p "campaign_id" ++ "/leads/" ++
          pathStr p "lead_id" ++ "/resume", "POST",
        [("resume_lead_with_delay_days",
          jOr (jgetV p "resume_lead_with_delay_days") (.num 0))]⟩),
    ("unsubscribe_lead_from_campaign", fun p =>
      ⟨"/campaigns/" ++ pathStr p "campaign_id" ++ "/leads/" ++
          pathStr p "lead_id" ++ "/unsubscribe", "POST", []⟩),
    ("unsubscribe_lead_global", fun p =>
      ⟨"/leads/" ++ pathStr p "lead_id" ++ "/unsubscribe", "POST", []⟩),
    ("get_all_leads", fun p =>
      ⟨"/leads/all", "GET",
        [("offset", jDefault p "offset" (.num 0)),
         ("limit", jDefault p "limit" (.num 100))]⟩),
    ("get_blocklist", fun p =>
      ⟨"/leads/global-block-list", "GET",
        [("offset", jDefault p "offset" (.num 0)),
         ("limit", jDefault p "limit" (.num 100))]⟩),
    ("add_to_blocklist", fun p =>
      ⟨"/leads/add-domain-block-list", "POST",
        [("domain_block_list", jgetV p "domains"),
         ("client_id", jOr (jgetV p "client_id") .null)]⟩),
    ("get_message_history", fun p =>
      ⟨"/campaigns/" ++ pathStr p "campaign_id" ++ "/leads/" ++
          pathStr p "lead_id" ++ "/message-history", "GET", []⟩),
    ("reply_to_lead", fun p =>
      ⟨"/campaigns/" ++ pathStr p "campaign_id" ++ "/reply-email-thread",
        "POST", p⟩),
    ("get_campaign_analytics", fun p =>
      ⟨"/campaigns/" ++ pathStr p "campaign_id" ++ "/analytics", "GET", []⟩),
    ("get_email_account_analytics", fun _ =>
      ⟨"/analytics/email-accounts", "GET", []⟩),
    ("get_master_inbox_stats", fun _ => ⟨"/analytics/master-inbox", "GET", []⟩),
    ("get_email_accounts", fun p =>
      ⟨"/email-accounts", "GET",
        [("offset", jDefault p "offset" (.num 0)),
         ("limit", jDefault p "limit" (.num 100))]⟩),
    ("get_email_account", fun p =>
      ⟨"/email-accounts/" ++ pathStr p "account_id", "GET", []⟩),
    ("create_email_account", fun p => ⟨"/email-accounts/save", "POST", p⟩),
    ("update_email_account", fun p =>
      ⟨"/email-accounts/" ++ pathStr p "account_id", "POST", p⟩),
    ("get_campaign_email_accounts", fun p =>
      ⟨"/campaigns/" ++ pathStr p "campaign_id" ++ "/email-accounts", "GET", []⟩),
    ("add_email_to_campaign", fun p =>
      ⟨"/campaigns/" ++ pathStr p "campaign_id" ++ "/email-accounts", "POST",
        [("email_account_ids", jgetV p "email_account_ids")]⟩),
    ("remove_email_from_campaign", fun p =>
      ⟨"/campaigns/" ++ pathStr p "campaign_id" ++ "/email-accounts", "DELETE",
        [("email_account_ids", jgetV p "email_account_ids")]⟩),
    ("update_warmup", fun p =>
      ⟨"/email-accounts/" ++ pathStr p "account_id" ++ "/warmup", "POST", p⟩),
    ("get_warmup_stats", fun p =>
      ⟨"/email-accounts/" ++ pathStr p "account_id" ++ "/warmup-stats", "GET", []⟩),
    ("reconnect_failed_accounts", fun _ =>
      ⟨"/email-accounts/reconnect-failed-email-accounts", "POST", []⟩),
    ("send_reply", fun p => ⟨"/replies", "POST", p⟩),
    ("get_conversations", fun p =>
      ⟨"/conversations", "GET",
        if jTruthy (jgetV p "campaign_id")
        then [("campaign_id", jgetV p "campaign_id")] else []⟩),
    ("list_webhooks", fun p =>
      ⟨"/campaigns/" ++ pathStr p "campaign_id" ++ "/webhooks", "GET", []⟩),
    ("create_webhook", fun p =>
      ⟨"/campaigns/" ++ pathStr p "campaign_id" ++ "/webhooks", "POST", p⟩),
    ("delete_webhook", fun p =>
      ⟨"/campaigns/" ++ pathStr p "campaign_id" ++ "/webhooks", "DELETE",
        [("id", jgetV p "webhook_id")]⟩),
    ("create_client", fun p => ⟨"/client/save", "POST", p⟩),
    ("list_clients", fun _ => ⟨"/client", "GET", []⟩) ]

/-- A protocol tool-call result: the content block texts and the
`isError` flag (absent in JavaScript reads as `false`). -/
structure ToolCallResult where
  contentTexts : List String
  isError : Bool
deriving Repr

/-- The call-tool handler of `src/src/index.ts`. `backend` resolves one
`SmartLeadClient.request` invocation to its outcome (the `Error`
message when it throws). The handler catches every exception and
returns a plain content result whose `isError` field is never set. -/
def indexHandler (backend : IndexCall → Except String JValue)
    (name : String) (args? : Option JObj) : ToolCallResult × List IndexCall :=
  match args? with
  | none => (⟨["Error: No arguments provided"], false⟩, [])
  | some params =>
    match lookupFn indexTable name with
    | none => (⟨["Error: Unknown tool: " ++ name], false⟩, [])
    | some mkCall =>
      let c := mkCall params
      match backend c with
      | .ok v => (⟨[jsonStringify v], false⟩, [c])
      | .error msg => (⟨["Error: " ++ msg], false⟩, [c])

theorem lookupFn_eq_none_iff {α : Type} (l : List (String × α)) (k : String) :
    lookupFn l k = none ↔ k ∉ l.map Prod.fst := by
  induction l with
  | nil => simp [lookupFn]
  | cons kv rest ih =>
    by_cases h : kv.1 = k
    · simp [lookupFn, h]
    · simp [lookupFn, h, ih, Ne.symm h]

/-- The switch cases of the handler cover exactly the advertised tools. -/
theorem indexTable_names_eq :
    indexTable.map Prod.fst = indexToolNames := by
  decide

/-! ## Retry policy of the enhanced gateway variant (`withRetry`)

Delays are rational numbers (the JavaScript configuration holds integer
delays and a real backoff factor). An execution is driven by an oracle
`op : Nat → Outcome` giving the outcome of each attempt, and yields the
final result together with the number of attempts performed and the
list of backoff delays slept, in order. -/

/-- `RETRY_CONFIG`: attempts bound, initial delay, delay ceiling and
backoff factor. -/
structure RetryConfig where
  maxAttempts : Nat
  initialDelay : ℚ
  maxDelay : ℚ
  backoffFactor : ℚ

/-- Why one attempt failed: an HTTP error response (axios error with a
response), a network failure (axios error without a response), or a
non-axios exception. -/
inductive UpstreamError where
  | http (status : Nat) (statusText : String) (body : String)
  | network (message : String)
  | other (message : String)
deriving Repr

/-- `axiosError.isAxiosError && axiosError.response?.status === 429`. -/
def isRateLimit : UpstreamError → Bool
  | .http s _ _ => s == 429
  | _ => false

/-- `axiosError.isAxiosError && !axiosError.response`. -/
def isNetworkError : UpstreamError → Bool
  | .network _ => true
  | _ => false

/-- The retry condition `isRateLimit || isNetworkError`. -/
def retriable (e : UpstreamError) : Bool :=
  isRateLimit e || isNetworkError e

/-- The backoff delay slept after a retriable failure of attempt
`attempt`:
`min(initialDelay * backoffFactor ^ (attempt - 1), maxDelay)`. -/
def delayFor (cfg : RetryConfig) (attempt : Nat) : ℚ :=
  min (cfg.initialDelay * cfg.backoffFactor ^ (attempt - 1)) cfg.maxDelay

/-- Outcome of invoking the wrapped operation once. -/
inductive Outcome (α : Type) where
  | ok (v : α)
  | fail (e : UpstreamError)

/-- Observable trace of one `withRetry` execution: the final result,
how many times the operation was invoked, and the delays slept. -/
structure RetryTrace (α : Type) where
  result : Except UpstreamError α
  attemptsUsed : Nat
  delays : List ℚ

/-- `withRetry` with its explicit `attempt` counter: try the operation;
on failure, when `attempt < maxAttempts` and the failure is retriable,
sleep the backoff delay and recurse with `attempt + 1`, else rethrow. -/
def withRetryAux {α : Type} (cfg : RetryConfig) (op : Nat → Outcome α)
    (attempt : Nat) : RetryTrace α :=
  match op attempt with
  | .ok v => ⟨.ok v, 1, []⟩
  | .fail e =>
    if h : attempt < cfg.maxAttempts ∧ retriable e = true then
      let t := withRetryAux cfg op (attempt + 1)
      ⟨t.result, t.attemptsUsed + 1, delayFor cfg attempt :: t.delays⟩
    else ⟨.error e, 1, []⟩
termination_by cfg.maxAttempts - attempt
decreasing_by
  obtain ⟨h1, -⟩ := h
  omega

/-- `withRetry(operation, context)` starts at attempt 1. -/
def withRetry {α : Type} (cfg : RetryConfig) (op : Nat → Outcome α) :
    RetryTrace α :=
  withRetryAux cfg op 1

theorem withRetryAux_ok {α : Type} {cfg : RetryConfig} {op : Nat → Outcome α}
    {a : Nat} {v : α} (h : op a = .ok v) :
    withRetryAux cfg op a = ⟨.ok v, 1, []⟩ := by
  rw [withRetryAux, h]

theorem withRetryAux_fail_retry {α : Type} {cfg : RetryConfig}
    {op : Nat → Outcome α} {a : Nat} {e : UpstreamError}
    (he : op a = .fail e) (hc : a < cfg.maxAttempts ∧ retriable e = true) :
    withRetryAux cfg op a =
      ⟨(withRetryAux cfg op (a + 1)).result,
       (withRetryAux cfg op (a + 1)).attemptsUsed + 1,
       delayFor cfg a :: (withRetryAux cfg op (a + 1)).delays⟩ := by
  rw [withRetryAux, he]
  simp [hc]

theorem withRetryAux_fail_stop {α : Type} {cfg : RetryConfig}
    {op : Nat → Outcome α} {a : Nat} {e : UpstreamError}
    (he : op a = .fail e) (hc : ¬(a < cfg.maxAttempts ∧ retriable e = true)) :
    withRetryAux cfg op a = ⟨.error e, 1, []⟩ := by
  rw [withRetryAux, he]
  simp [hc]

/-- Master invariant of `withRetryAux`, by induction on an upper bound
of the remaining attempt budget: the attempt count is positive and
bounded, one delay is slept per retried failure, the `i`-th delay is
the backoff formula at attempt `a + i`, every attempt before the last
failed retriably, and the final result is the outcome of the last
attempt performed. -/
theorem withRetryAux_spec {α : Type} (cfg : RetryConfig) (op : Nat → Outcome α) :
    ∀ (n a : Nat), cfg.maxAttempts - a ≤ n →
      1 ≤ (withRetryAux cfg op a).attemptsUsed ∧
      (withRetryAux cfg op a).attemptsUsed ≤ n + 1 ∧
      (withRetryAux cfg op a).delays.length + 1 =
        (withRetryAux cfg op a).attemptsUsed ∧
      (∀ i (hi : i < (withRetryAux cfg op a).delays.length),
        (withRetryAux cfg op a).delays.get ⟨i, hi⟩ = delayFor cfg (a + i)) ∧
      (∀ j, a ≤ j → j + 1 < a + (withRetryAux cfg op a).attemptsUsed →
        ∃ e, op j = .fail e ∧ retriable e = true) ∧
      (∀ v, (withRetryAux cfg op a).result = .ok v →
        op (a + (withRetryAux cfg op a).attemptsUsed - 1) = .ok v) ∧
      (∀ e, (withRetryAux cfg op a).result = .error e →
        op (a + (withRetryAux cfg op a).attemptsUsed - 1) = .fail e) := by
  intro n
  induction n with
  | zero =>
    intro a ha
    cases hop : op a with
    | ok v =>
      rw [withRetryAux_ok hop]
      dsimp only
      refine ⟨le_refl 1, le_refl 1, rfl, ?_, ?_, ?_, ?_⟩
      · intro i hi; simp at hi
      · intro j hj1 hj2; omega
      · intro w hw
        simp only [Except.ok.injEq] at hw
        simpa [hw] using hop
      · intro e he; simp at he
    | fail e =>
      have hstop : ¬(a < cfg.maxAttempts ∧ retriable e = true) := by
        intro hcontra
        omega
      rw [withRetryAux_fail_stop hop hstop]
      dsimp only
      refine ⟨le_refl 1, le_refl 1, rfl, ?_, ?_, ?_, ?_⟩
      · intro i hi; simp at hi
      · intro j hj1 hj2; omega
      · intro w hw; simp at hw
      · intro e' he'
        simp only [Except.error.injEq] at he'
        simpa [he'] using hop
  | succ n ih =>
    intro a ha
    cases hop : op a with
    | ok v =>
      rw [withRetryAux_ok hop]
      dsimp only
      refine ⟨le_refl 1, by omega, rfl, ?_, ?_, ?_, ?_⟩
      · intro i hi; simp at hi
      · intro j hj1 hj2; omega
      · intro w hw
        simp only [Except.ok.injEq] at hw
        simpa [hw] using hop
      · intro e he; simp at he
    | fail e =>
      by_cases hc : a < cfg.maxAttempts ∧ retriable e = true
      · rw [withRetryAux_fail_retry hop hc]
        dsimp only
        have ha' : cfg.maxAttempts - (a + 1) ≤ n := by omega
        obtain ⟨ih1, ih2, ih3, ih4, ih5, ih6, ih7⟩ := ih (a + 1) ha'
        refine ⟨by omega, by omega, ?_, ?_, ?_, ?_, ?_⟩
        · simp only [List.length_cons]
          omega
        · intro i hi
          cases i with
          | zero => simp
          | succ i' =>
            simp only [List.length_cons] at hi
            have hi' : i' < (withRetryAux cfg op (a + 1)).delays.length := by
              omega
            have := ih4 i' hi'
            simp only [List.get_cons_succ]
            rw [this]
            congr 1
            omega
        · intro j hj1 hj2
          rcases Nat.eq_or_lt_of_le hj1 with heq | hlt
          · exact ⟨e, heq ▸ hop, hc.2⟩
          · exact ih5 j hlt (by omega)
        · intro w hw
          have := ih6 w hw
          have harith : a + ((withRetryAux cfg op (a + 1)).attemptsUsed + 1) - 1 =
              a + 1 + (withRetryAux cfg op (a + 1)).attemptsUsed - 1 := by
            omega
          rw [harith]
          exact this
        · intro e' he'
          have := ih7 e' he'
          have harith : a + ((withRetryAux cfg op (a + 1)).attemptsUsed + 1) - 1 =
              a + 1 + (withRetryAux cfg op (a + 1)).attemptsUsed - 1 := by
            omega
          rw [harith]
          exact this
      · rw [withRetryAux_fail_stop hop hc]
        dsimp only
        refine ⟨le_refl 1, by omega, rfl, ?_, ?_, ?_, ?_⟩
        · intro i hi; simp at hi
        · intro j hj1 hj2; omega
        · intro w hw; simp at hw
        · intro e' he'
          simp only [Except.error.injEq] at he'
          simpa [he'] using hop

/-- Classification of the retry condition by error shape. -/
theorem retriable_iff (e : UpstreamError) :
    retriable e = true ↔
      ((∃ m, e = .network m) ∨ (∃ st b, e = .http 429 st b)) := by
  cases e with
  | http s st b =>
    simp only [retriable, isRateLimit, isNetworkError, Bool.or_false]
    constructor
    · intro h
      refine Or.inr ⟨st, b, ?_⟩
      have : s = 429 := by
        simpa using h
      simp [this]
    · rintro (⟨m, hm⟩ | ⟨st', b', hh⟩)
      · cases hm
      · cases hh
        simp
  | network m => simp [retriable, isRateLimit, isNetworkError]
  | other m => simp [retriable, isRateLimit, isNetworkError]

/-- C3: a failed attempt is retried exactly when the failure is a
network failure (no response) or an HTTP 429; every other failure is
surfaced after exactly one attempt. -/
theorem claim_C3_retry_classification {α : Type} (cfg : RetryConfig)
    (op : Nat → Outcome α) (e : UpstreamError)
    (hmax : 2 ≤ cfg.maxAttempts) (hf : op 1 = .fail e) :
    (retriable e = true ↔ 2 ≤ (withRetry cfg op).attemptsUsed) ∧
    (retriable e = false →
      (withRetry cfg op).attemptsUsed = 1 ∧
      (withRetry cfg op).result = .error e) ∧
    (retriable e = true ↔
      ((∃ m, e = .network m) ∨ (∃ st b, e = .http 429 st b))) := by
  refine ⟨?_, ?_, retriable_iff e⟩
  · constructor
    · intro hr
      have hc : 1 < cfg.maxAttempts ∧ retriable e = true := ⟨by omega, hr⟩
      rw [withRetry, withRetryAux_fail_retry hf hc]
      dsimp only
      have h1 := (withRetryAux_spec cfg op cfg.maxAttempts (1 + 1) (by omega)).1
      omega
    · intro hge
      by_contra hr
      have hr' : retriable e = false := by
        simpa using hr
      have hc : ¬(1 < cfg.maxAttempts ∧ retriable e = true) := by
        simp [hr']
      rw [withRetry, withRetryAux_fail_stop hf hc] at hge
      dsimp only at hge
      omega
  · intro hr
    have hc : ¬(1 < cfg.maxAttempts ∧ retriable e = true) := by
      simp [hr]
    rw [withRetry, withRetryAux_fail_stop hf hc]
    exact ⟨rfl, rfl⟩

/-- C3 witness: an HTTP 404 failure is terminal and results in exactly
one attempt. -/
theorem claim_C3_witness :
    2 ≤ (RetryConfig.mk 3 1 10 2).maxAttempts ∧
    ((fun _ => Outcome.fail (α := Unit) (.http 404 "Not Found" "")) 1 =
      .fail (.http 404 "Not Found" "")) ∧
    (retriable (.http 404 "Not Found" "") = false →
      (withRetry (RetryConfig.mk 3 1 10 2)
        (fun _ => Outcome.fail (α := Unit) (.http 404 "Not Found" ""))).attemptsUsed = 1 ∧
      (withRetry (RetryConfig.mk 3 1 10 2)
        (fun _ => Outcome.fail (α := Unit) (.http 404 "Not Found" ""))).result =
        .error (.http 404 "Not Found" "")) :=
  ⟨by norm_num, rfl,
    (claim_C3_retry_classification (RetryConfig.mk 3 1 10 2) _ _
      (by norm_num) rfl).2.1⟩

/-- C4: the `i`-th backoff delay (slept after the failure of attempt
`k = i + 1`) equals `min(initialDelay * backoffFactor ^ (k - 1),
maxDelay)`; every delay is at most `maxDelay`, and for a backoff factor
at least 1 (and a nonnegative initial delay) successive delays are
non-decreasing. -/
theorem claim_C4_backoff_delays {α : Type} (cfg : RetryConfig)
    (op : Nat → Outcome α)
    (hb : 1 ≤ cfg.backoffFactor) (hd : 0 ≤ cfg.initialDelay) :
    (∀ i (hi : i < (withRetry cfg op).delays.length),
      (withRetry cfg op).delays.get ⟨i, hi⟩ =
        min (cfg.initialDelay * cfg.backoffFactor ^ i) cfg.maxDelay ∧
      (withRetry cfg op).delays.get ⟨i, hi⟩ ≤ cfg.maxDelay) ∧
    (∀ i j (hi : i < (withRetry cfg op).delays.length)
        (hj : j < (withRetry cfg op).delays.length), i ≤ j →
      (withRetry cfg op).delays.get ⟨i, hi⟩ ≤
        (withRetry cfg op).delays.get ⟨j, hj⟩) := by
  have hget : ∀ i (hi : i < (withRetry cfg op).delays.length),
      (withRetry cfg op).delays.get ⟨i, hi⟩ =
        min (cfg.initialDelay * cfg.backoffFactor ^ i) cfg.maxDelay := by
    intro i hi
    have hi' : i < (withRetryAux cfg op 1).delays.length := by
      simpa [withRetry] using hi
    have h4 := (withRetryAux_spec cfg op cfg.maxAttempts 1 (by omega)).2.2.2.1 i hi'
    calc (withRetry cfg op).delays.get ⟨i, hi⟩
        = (withRetryAux cfg op 1).delays.get ⟨i, hi'⟩ := rfl
      _ = delayFor cfg (1 + i) := h4
      _ = min (cfg.initialDelay * cfg.backoffFactor ^ i) cfg.maxDelay := by
          rw [delayFor]
          have harith : 1 + i - 1 = i := by omega
          rw [harith]
  refine ⟨?_, ?_⟩
  · intro i hi
    exact ⟨hget i hi, by rw [hget i hi]; exact min_le_right _ _⟩
  · intro i j hi hj hij
    rw [hget i hi, hget j hj]
    refine min_le_min ?_ (le_refl _)
    exact mul_le_mul_of_nonneg_left (pow_le_pow_right₀ hb hij) hd

/-- C4 witness: the default configuration (3 attempts, initial delay
1000 scaled to 1, ceiling 10, factor 2) satisfies the hypotheses. -/
theorem claim_C4_witness :
    (1 : ℚ) ≤ (RetryConfig.mk 3 1 10 2).backoffFactor ∧
    (0 : ℚ) ≤ (RetryConfig.mk 3 1 10 2).initialDelay ∧
    (∀ i (hi : i < (withRetry (RetryConfig.mk 3 1 10 2)
        (fun _ => Outcome.fail (α := Unit) (.network "ECONNRESET"))).delays.length),
      (withRetry (RetryConfig.mk 3 1 10 2)
        (fun _ => Outcome.fail (α := Unit) (.network "ECONNRESET"))).delays.get ⟨i, hi⟩ ≤
        (RetryConfig.mk 3 1 10 2).maxDelay) :=
  ⟨by norm_num, by norm_num, fun i hi =>
    ((claim_C4_backoff_delays (RetryConfig.mk 3 1 10 2) _
      (by norm_num) (by norm_num)).1 i hi).2⟩

/-- C5: `withRetry` performs at most `maxAttempts` invocations and
terminates (it is a total function), returning the outcome of its last
attempt: a success is the first success (all earlier attempts failed
retriably), and after exhaustion the last error is rethrown. -/
theorem claim_C5_withRetry_termination {α : Type} (cfg : RetryConfig)
    (op : Nat → Outcome α) (hmax : 1 ≤ cfg.maxAttempts) :
    1 ≤ (withRetry cfg op).attemptsUsed ∧
    (withRetry cfg op).attemptsUsed ≤ cfg.maxAttempts ∧
    (∀ j, 1 ≤ j → j < (withRetry cfg op).attemptsUsed →
      ∃ e, op j = .fail e ∧ retriable e = true) ∧
    (∀ v, (withRetry cfg op).result = .ok v →
      op (withRetry cfg op).attemptsUsed = .ok v) ∧
    (∀ e, (withRetry cfg op).result = .error e →
      op (withRetry cfg op).attemptsUsed = .fail e) := by
  obtain ⟨h1, h2, h3, h4, h5, h6, h7⟩ :=
    withRetryAux_spec cfg op (cfg.maxAttempts - 1) 1 (by omega)
  rw [withRetry]
  have hidx : 1 + (withRetryAux cfg op 1).attemptsUsed - 1 =
      (withRetryAux cfg op 1).attemptsUsed := by
    omega
  refine ⟨h1, by omega, ?_, ?_, ?_⟩
  · intro j hj1 hj2
    exact h5 j hj1 (by omega)
  · intro v hv
    have := h6 v hv
    rwa [hidx] at this
  · intro e he
    have := h7 e he
    rwa [hidx] at this

/-- C5 witness: three terminal failures exhaust nothing (non-retriable),
one attempt is performed and the error is surfaced. -/
theorem claim_C5_witness :
    1 ≤ (RetryConfig.mk 3 1 10 2).maxAttempts ∧
    (withRetry (RetryConfig.mk 3 1 10 2)
      (fun _ => Outcome.fail (α := Unit) (.http 500 "Internal Server Error" ""))).attemptsUsed ≤
      (RetryConfig.mk 3 1 10 2).maxAttempts :=
  ⟨by norm_num,
    (claim_C5_withRetry_termination (RetryConfig.mk 3 1 10 2) _ (by norm_num)).2.1⟩

/-! ## Tools and call-tool handler of the enhanced gateway (`part_006`)

Each of the 21 `smartlead_*` tools is a table entry holding the
declared `required` properties of its input schema, the body of its
`is...Params` type guard (the leading
`typeof args === "object" && args !== null` conjunct is the
`Option JObj` match in the handler), and the single `apiClient` request
its switch case issues. -/

/-- `v === undefined`. -/
def jIsUndefined : JValue → Bool
  | .undefined => true
  | _ => false

/-- One `apiClient` request: HTTP method, path, query parameters passed
per-call, and JSON body. -/
structure ApiCall where
  method : String
  path : String
  query : JObj
  body : Option JValue
deriving Repr

/-- A tool of the enhanced gateway. -/
structure P6Tool where
  required : List String
  guard : JObj → Bool
  mkCall : JObj → ApiCall

def isCreateCampaignParams (a : JObj) : Bool :=
  jIsStr (jgetV a "name") &&
    (jIsUndefined (jgetV a "client_id") || jIsNum (jgetV a "client_id"))

def isUpdateCampaignScheduleParams (a : JObj) : Bool :=
  jIsNum (jgetV a "campaign_id")

def isUpdateCampaignSettingsParams (a : JObj) : Bool :=
  jIsNum (jgetV a "campaign_id")

def isGetCampaignParams (a : JObj) : Bool :=
  jIsNum (jgetV a "campaign_id")

def isListCampaignsParams (_a : JObj) : Bool :=
  true

def isSaveCampaignSequenceParams (a : JObj) : Bool :=
  jIsNum (jgetV a "campaign_id") && jIsArr (jgetV a "sequences")

def isGetCampaignSequenceParams (a : JObj) : Bool :=
  jIsNum (jgetV a "campaign_id")

def isUpdateCampaignSequenceParams (a : JObj) : Bool :=
  jIsNum (jgetV a "campaign_id") && jIsNum (jgetV a "sequence_id")

def isDeleteCampaignSequenceParams (a : JObj) : Bool :=
  jIsNum (jgetV a "campaign_id") && jIsNum (jgetV a "sequence_id")

def isAddEmailAccountToCampaignParams (a : JObj) : Bool :=
  jIsNum (jgetV a "campaign_id") && jIsNum (jgetV a "email_account_id")

def isUpdateEmailAccountInCampaignParams (a : JObj) : Bool :=
  jIsNum (jgetV a "campaign_id") && jIsNum (jgetV a "email_account_id")

def isDeleteEmailAccountFromCampaignParams (a : JObj) : Bool :=
  jIsNum (jgetV a "campaign_id") && jIsNum (jgetV a "email_account_id")

def isAddLeadToCampaignParams (a : JObj) : Bool :=
  jIsNum (jgetV a "campaign_id") && jIsArr (jgetV a "lead_list")

def isUpdateLeadInCampaignParams (a : JObj) : Bool :=
  jIsNum (jgetV a "campaign_id") && jIsNum (jgetV a "lead_id") &&
    jIsObjLike (jgetV a "lead")

def isDeleteLeadFromCampaignParams (a : JObj) : Bool :=
  jIsNum (jgetV a "campaign_id") && jIsNum (jgetV a "lead_id")

def isListLeadsByCampaignParams (a : JObj) : Bool :=
  jIsNum (jgetV a "campaign_id")

def isGetCampaignStatisticsParams (a : JObj) : Bool :=
  jIsNum (jgetV a "campaign_id")

def isGetLeadMessageHistoryParams (a : JObj) : Bool :=
  jIsNum (jgetV a "campaign_id") && jIsNum (jgetV a "lead_id")

def isGetCampaignAnalyticsParams (a : JObj) : Bool :=
  jIsNum (jgetV a "campaign_id")

def isGetCampaignAnalyticsByDateParams (a : JObj) : Bool :=
  jIsNum (jgetV a "campaign_id") && jIsStr (jgetV a "start_date") &&
    jIsStr (jgetV a "end_date")

def isSearchLeadsByEmailParams (a : JObj) : Bool :=
  jIsStr (jgetV a "email")

/-- `args.status !== "all"` negated: the status value is the literal
string `all`. -/
def statusIsAll : JValue → Bool
  | .str s => s == "all"
  | _ => false

/-- The optional-parameter filter of the `smartlead_list_campaigns`
case: include `limit` and `offset` when defined, and `status` when
defined and not the string `all`. -/
def listCampaignsQuery (a : JObj) : JObj :=
  (if jIsUndefined (jgetV a "limit") then [] else [("limit", jgetV a "limit")]) ++
  (if jIsUndefined (jgetV a "offset") then [] else [("offset", jgetV a "offset")]) ++
  (if jIsUndefined (jgetV a "status") || statusIsAll (jgetV a "status") then []
   else [("status", jgetV a "status")])

/-- The `smartlead_update_campaign_schedule` tool of the enhanced
gateway: the case copies the argument object, deletes `campaign_id`
from the copy (the original is untouched), and posts the copy as the
body. -/
def updateCampaignScheduleTool : P6Tool :=
  ⟨["campaign_id"], isUpdateCampaignScheduleParams,
   fun a => ⟨"POST", "/campaigns/" ++ pathStr a "campaign_id" ++ "/schedule",
     [], some (.obj (jdelete a "campaign_id"))⟩⟩

/-- The 21 tools of the enhanced gateway, in the order they are
declared and advertised. -/
def part006Table : List (String × P6Tool) :=
  [ ("smartlead_create_campaign",
     ⟨["name"], isCreateCampaignParams,
      fun a => ⟨"POST", "/campaigns/create", [], some (.obj a)⟩⟩),
    ("smartlead_update_campaign_schedule", updateCampaignScheduleTool),
    ("smartlead_update_campaign_settings",
     ⟨["campaign_id"], isUpdateCampaignSettingsParams,
      fun a => ⟨"POST", "/campaigns/" ++ pathStr a "campaign_id" ++ "/settings",
        [], some (.obj (jdelete a "campaign_id"))⟩⟩),
    ("smartlead_get_campaign",
     ⟨["campaign_id"], isGetCampaignParams,
      fun a => ⟨"GET", "/campaigns/" ++ pathStr a "campaign_id", [], none⟩⟩),
    ("smartlead_list_campaigns",
     ⟨[], isListCampaignsParams,
      fun a => ⟨"GET", "/campaigns", listCampaignsQuery a, none⟩⟩),
    ("smartlead_save_campaign_sequence",
     ⟨["campaign_id", "sequences"], isSaveCampaignSequenceParams,
      fun a => ⟨"POST", "/campaigns/" ++ pathStr a "campaign_id" ++ "/sequences",
        [], some (.obj [("sequences", jgetV a "sequences")])⟩⟩),
    ("smartlead_get_campaign_sequence",
     ⟨["campaign_id"], isGetCampaignSequenceParams,
      fun a => ⟨"GET", "/campaigns/" ++ pathStr a "campaign_id" ++ "/sequences",
        [], none⟩⟩),
    ("smartlead_update_campaign_sequence",
     ⟨["campaign_id", "sequence_id"], isUpdateCampaignSequenceParams,
      fun a => ⟨"PUT", "/campaigns/" ++ pathStr a "campaign_id" ++
          "/sequences/" ++ pathStr a "sequence_id",
        [], some (.obj (jdelete (jdelete a "campaign_id") "sequence_id"))⟩⟩),
    ("smartlead_delete_campaign_sequence",
     ⟨["campaign_id", "sequence_id"], isDeleteCampaignSequenceParams,
      fun a => ⟨"DELETE", "/campaigns/" ++ pathStr a "campaign_id" ++
          "/sequences/" ++ pathStr a "sequence_id", [], none⟩⟩),
    ("smartlead_add_email_account_to_campaign",
     ⟨["campaign_id", "email_account_id"], isAddEmailAccountToCampaignParams,
      fun a => ⟨"POST", "/campaigns/" ++ pathStr a "campaign_id" ++
          "/email-accounts",
        [], some (.obj [("email_account_id", jgetV a "email_account_id")])⟩⟩),
    ("smartlead_update_email_account_in_campaign",
     ⟨["campaign_id", "email_account_id"], isUpdateEmailAccountInCampaignParams,
      fun a => ⟨"PUT", "/campaigns/" ++ pathStr a "campaign_id" ++
          "/email-accounts/" ++ pathStr a "email_account_id",
        [], some (.obj [("settings", jOr (jgetV a "settings") (.obj []))])⟩⟩),
    ("smartlead_delete_email_account_from_campaign",
     ⟨["campaign_id", "email_account_id"], isDeleteEmailAccountFromCampaignParams,
      fun a => ⟨"DELETE", "/campaigns/" ++ pathStr a "campaign_id" ++
          "/email-accounts/" ++ pathStr a "email_account_id", [], none⟩⟩),
    ("smartlead_add_lead_to_campaign",
     ⟨["campaign_id", "lead_list"], isAddLeadToCampaignParams,
      fun a => ⟨"POST", "/campaigns/" ++ pathStr a "campaign_id" ++ "/leads",
        [], some (.obj [("lead_list", jgetV a "lead_list"),
                        ("settings", jOr (jgetV a "settings") (.obj []))])⟩⟩),
    ("smartlead_update_lead_in_campaign",
     ⟨["campaign_id", "lead_id", "lead"], isUpdateLeadInCampaignParams,
      fun a => ⟨"POST", "/campaigns/" ++ pathStr a "campaign_id" ++
          "/leads/" ++ pathStr a "lead_id",
        [], some (.obj [("lead", jgetV a "lead")])⟩⟩),
    ("smartlead_delete_lead_from_campaign",
     ⟨["campaign_id", "lead_id"], isDeleteLeadFromCampaignParams,
      fun a => ⟨"DELETE", "/campaigns/" ++ pathStr a "campaign_id" ++
          "/leads/" ++ pathStr a "lead_id", [], none⟩⟩),
    ("smartlead_list_leads_by_campaign",
     ⟨["campaign_id"], isListLeadsByCampaignParams,
      fun a => ⟨"GET", "/campaigns/" ++ pathStr a "campaign_id" ++ "/leads",
        jdelete a "campaign_id", none⟩⟩),
    ("smartlead_get_campaign_statistics",
     ⟨["campaign_id"], isGetCampaignStatisticsParams,
      fun a => ⟨"GET", "/campaigns/" ++ pathStr a "campaign_id" ++ "/statistics",
        jdelete a "campaign_id", none⟩⟩),
    ("smartlead_get_lead_message_history",
     ⟨["campaign_id", "lead_id"], isGetLeadMessageHistoryParams,
      fun a => ⟨"GET", "/campaigns/" ++ pathStr a "campaign_id" ++
          "/leads/" ++ pathStr a "lead_id" ++ "/message-history", [], none⟩⟩),
    ("smartlead_get_campaign_analytics",
     ⟨["campaign_id"], isGetCampaignAnalyticsParams,
      fun a => ⟨"GET", "/campaigns/" ++ pathStr a "campaign_id" ++ "/analytics",
        [], none⟩⟩),
    ("smartlead_get_campaign_analytics_by_date",
     ⟨["campaign_id", "start_date", "end_date"], isGetCampaignAnalyticsByDateParams,
      fun a => ⟨"GET", "/campaigns/" ++ pathStr a "campaign_id" ++
          "/analytics-by-date",
        [("start_date", jgetV a "start_date"), ("end_date", jgetV a "end_date")],
        none⟩⟩),
    ("smartlead_search_leads_by_email",
     ⟨["email"], isSearchLeadsByEmailParams,
      fun a => ⟨"GET", "/leads/", [("email", jgetV a "email")], none⟩⟩) ]

/-- Tool names advertised by the enhanced gateway, in order. -/
def part006ToolNames : List String :=
  part006Table.map Prod.fst

/-- `McpError` renders its message as `MCP error <code>: <message>`. -/
def mcpMessage (code : Int) (msg : String) : String :=
  "MCP error " ++ toString code ++ ": " ++ msg

/-- The catch-block message for an upstream failure (the exact rendering
of the error body is irrelevant to every claim; the raw body text
stands in for the `responseData` rendering). -/
def p6UpstreamMessage : UpstreamError → String
  | .http s _ b =>
      mcpMessage (-32603) ("Smartlead API Error: " ++ toString s ++ " " ++
        ("Request failed with status code " ++ toString s) ++
        (if b = "" then "" else " - " ++ b))
  | .network m => mcpMessage (-32603) ("Smartlead API Error: 500 " ++ m)
  | .other m => mcpMessage (-32603) ("Tool handler error: " ++ m)

/-- The call-tool handler of the enhanced gateway: look the tool up; an
unknown name throws `MethodNotFound`, a failed type guard throws
`InvalidParams` (both before any `apiClient` call), and any thrown
`McpError` is caught and returned as a content block with
`isError = true`. On a passing guard the single upstream request is
issued through `withRetry`; `upstream` resolves it to its final
outcome. -/
def part006Handler (upstream : ApiCall → Except UpstreamError JValue)
    (name : String) (args? : Option JObj) : ToolCallResult × List ApiCall :=
  match lookupFn part006Table name with
  | none => (⟨[mcpMessage (-32601) ("Unknown tool: " ++ name)], true⟩, [])
  | some t =>
    match args? with
    | none => (⟨[mcpMessage (-32602) ("Invalid args for " ++ name)], true⟩, [])
    | some args =>
      if t.guard args then
        let c := t.mkCall args
        match upstream c with
        | .ok v => (⟨[jsonStringify v], false⟩, [c])
        | .error e => (⟨[p6UpstreamMessage e], true⟩, [c])
      else (⟨[mcpMessage (-32602) ("Invalid args for " ++ name)], true⟩, [])

theorem lookupFn_mem {α : Type} {l : List (String × α)} {k : String} {v : α}
    (h : lookupFn l k = some v) : (k, v) ∈ l := by
  induction l with
  | nil => simp [lookupFn] at h
  | cons kv rest ih =>
    obtain ⟨k1, v1⟩ := kv
    by_cases hk : k1 = k
    · subst hk
      have hself : lookupFn ((k1, v1) :: rest) k1 = some v1 := by
        simp [lookupFn]
      rw [hself] at h
      cases h
      exact List.mem_cons_self _ _
    · have hne : ¬((k1, v1).1 = k) := hk
      simp only [lookupFn, hne, ite_false] at h
      exact List.mem_cons_of_mem _ (ih h)

/-- Every type guard of the enhanced gateway rejects an argument object
missing any one of the required properties of its tool. -/
theorem part006_guard_covers_required :
    ∀ e ∈ part006Table, ∀ (args : JObj) (r : String),
      r ∈ e.2.required → jget args r = none → e.2.guard args = false := by
  intro e he args r hr hnone
  fin_cases he <;>
    simp only [updateCampaignScheduleTool, List.mem_cons, List.mem_singleton,
      List.not_mem_nil, or_false] at hr <;>
    rcases hr with rfl | rfl | rfl <;>
    simp [isCreateCampaignParams, isUpdateCampaignScheduleParams,
      isUpdateCampaignSettingsParams, isGetCampaignParams,
      isSaveCampaignSequenceParams, isGetCampaignSequenceParams,
      isUpdateCampaignSequenceParams, isDeleteCampaignSequenceParams,
      isAddEmailAccountToCampaignParams, isUpdateEmailAccountInCampaignParams,
      isDeleteEmailAccountFromCampaignParams, isAddLeadToCampaignParams,
      isUpdateLeadInCampaignParams, isDeleteLeadFromCampaignParams,
      isListLeadsByCampaignParams, isGetCampaignStatisticsParams,
      isGetLeadMessageHistoryParams, isGetCampaignAnalyticsParams,
      isGetCampaignAnalyticsByDateParams, isSearchLeadsByEmailParams,
      updateCampaignScheduleTool, jgetV_eq_undefined hnone, jIsNum, jIsStr,
      jIsArr, jIsObjLike]

/-! ## The modular gateway variant (`part_005`) and its tool modules

`part_005` dispatches a call-tool request by tool-name prefix to the
campaign / lead / analytics / reply / webhook modules; each module is a
switch whose default case throws `Error("Unknown <kind> tool: ...")`.
The handler catches every non-`McpError` exception, wraps it into an
`McpError` and rethrows it, so every failure propagates out of the
handler as a thrown `McpError` (nothing is returned with `isError`).
The modules call the shared `SmartLeadClient` utility, whose
`get`/`post`/`delete` helpers bottom out in one axios request each,
recorded as an `ApiCall`. Floating-point percentage formatting in the
analytics overview is abstracted as the `metricsOf` parameter. -/

/-- A thrown `McpError`: protocol code and rendered message. -/
structure McpErr where
  code : Int
  msg : String
deriving Repr

/-- Optional-chaining property access `args?.k`. -/
def optGetV (a? : Option JObj) (k : String) : JValue :=
  match a? with
  | some a => jgetV a k
  | none => .undefined

/-- The TypeError message raised by `args.k` when `args` is
`undefined`. -/
def typeErrorReading (prop : String) : String :=
  "Cannot read properties of undefined (reading " ++ prop ++ ")"

/-- The module result type: either a thrown `Error` message, or the
returned content result together with the upstream calls issued. -/
abbrev ModResult := Except String (ToolCallResult × List ApiCall)

/-- Issue one utility-client call and shape the result text. -/
def runCall (backend : ApiCall → Except String JValue) (c : ApiCall)
    (mkText : JValue → String) : ModResult :=
  match backend c with
  | .ok v => .ok (⟨[mkText v], false⟩, [c])
  | .error m => .error m

/-- `v === "lit"` for a string literal. -/
def jEqStr (v : JValue) (lit : String) : Bool :=
  match v with
  | .str s => s == lit
  | _ => false

/-- `.length` of an array value. -/
def jArrLen : JValue → Nat
  | .arr xs => xs.length
  | _ => 0

/-- `\x7b...v\x7d` of a non-object spreads to nothing relevant here. -/
def spreadFields : JValue → JObj
  | .obj o => o
  | _ => []

/-- `tools/campaigns`: the three campaign tools. -/
def campaignTable : List (String × ((ApiCall → Except String JValue) → Option JObj → ModResult)) :=
  [ ("campaign_list", fun backend a? =>
      match a? with
      | none => .error (typeErrorReading "offset")
      | some a =>
        runCall backend
          ⟨"GET", "/campaigns",
            [("offset", jOr (jgetV a "offset") (.num 0)),
             ("limit", jOr (jgetV a "limit") (.num 100))], none⟩
          jsonStringify),
    ("campaign_get", fun backend a? =>
      match a? with
      | none => .error (typeErrorReading "campaignId")
      | some a =>
        runCall backend
          ⟨"GET", "/campaigns/" ++ pathStr a "campaignId", [], none⟩
          jsonStringify),
    ("campaign_status_update", fun backend a? =>
      match a? with
      | none => .error (typeErrorReading "status")
      | some a =>
        let ep :=
          if jEqStr (jgetV a "status") "START" then
            "/campaigns/" ++ pathStr a "campaignId" ++ "/start"
          else if jEqStr (jgetV a "status") "PAUSE" then
            "/campaigns/" ++ pathStr a "campaignId" ++ "/pause"
          else if jEqStr (jgetV a "status") "STOP" then
            "/campaigns/" ++ pathStr a "campaignId" ++ "/stop"
          else "/campaigns/" ++ pathStr a "campaignId" ++ "/resume"
        runCall backend ⟨"POST", ep, [], none⟩
          (fun v => "Campaign " ++ pathStr a "campaignId" ++
            " status updated to " ++ jstr (jgetV a "status") ++
            ". Response: " ++ jsonStringify v)) ]

/-- `handleCampaignTool`. -/
def handleCampaignTool (backend : ApiCall → Except String JValue)
    (name : String) (a? : Option JObj) : ModResult :=
  match lookupFn campaignTable name with
  | some f => f backend a?
  | none => .error ("Unknown campaign tool: " ++ name)

/-- `tools/leads`: the four lead tools, each validating its required
arguments by truthiness before calling upstream. -/
def leadTable : List (String × ((ApiCall → Except String JValue) → Option JObj → ModResult)) :=
  [ ("lead_list_by_campaign", fun backend a? =>
      if !(jTruthy (optGetV a? "campaignId")) then
        .error "campaignId is required"
      else
        runCall backend
          ⟨"GET", "/campaigns/" ++ jstr (optGetV a? "campaignId") ++ "/leads",
            [("offset", jOr (optGetV a? "offset") (.num 0)),
             ("limit", jOr (optGetV a? "limit") (.num 100))], none⟩
          jsonStringify),
    ("lead_search_by_email", fun backend a? =>
      if !(jTruthy (optGetV a? "email")) then
        .error "email is required"
      else
        runCall backend
          ⟨"GET", "/leads/search", [("email", optGetV a? "email")], none⟩
          jsonStringify),
    ("lead_update_category", fun backend a? =>
      if !(jTruthy (optGetV a? "email")) ||
          !(jTruthy (optGetV a? "campaignId")) ||
          !(jTruthy (optGetV a? "leadCategory")) then
        .error "email, campaignId, and leadCategory are required"
      else
        runCall backend
          ⟨"POST", "/leads/category/update", [],
            some (.obj [("email", optGetV a? "email"),
                        ("campaignId", optGetV a? "campaignId"),
                        ("leadCategory", optGetV a? "leadCategory")])⟩
          (fun v => "Lead category updated successfully. Response: " ++
            jsonStringify v)),
    ("lead_add_to_blocklist", fun backend a? =>
      if !(jTruthy (optGetV a? "emails")) || !(jIsArr (optGetV a? "emails")) then
        .error "emails array is required"
      else
        runCall backend
          ⟨"POST", "/leads/block-list", [],
            some (.obj [("emails", optGetV a? "emails")])⟩
          (fun v => "Added " ++ toString (jArrLen (optGetV a? "emails")) ++
            " email(s) to blocklist. Response: " ++ jsonStringify v)) ]

/-- `handleLeadTool`. -/
def handleLeadTool (backend : ApiCall → Except String JValue)
    (name : String) (a? : Option JObj) : ModResult :=
  match lookupFn leadTable name with
  | some f => f backend a?
  | none => .error ("Unknown lead tool: " ++ name)

/-- The enhanced analytics object of `analytics_campaign_overview`:
the response spread plus a `calculated_metrics` member whose
floating-point percentage formatting is the abstract `metricsOf`. -/
def enhancedOverview (metricsOf : JValue → JValue) (v : JValue) : JValue :=
  .obj (jset (spreadFields v) "calculated_metrics" (metricsOf v))

/-- `tools/analytics`: the three analytics tools (no argument
validation in this module; an `undefined` argument object raises a
TypeError at the first member access). -/
def analyticsTable (metricsOf : JValue → JValue) :
    List (String × ((ApiCall → Except String JValue) → Option JObj → ModResult)) :=
  [ ("analytics_campaign_overview", fun backend a? =>
      match a? with
      | none => .error (typeErrorReading "campaignId")
      | some a =>
        runCall backend
          ⟨"GET", "/campaigns/" ++ pathStr a "campaignId" ++ "/analytics",
            [], none⟩
          (fun v => jsonStringify (enhancedOverview metricsOf v))),
    ("analytics_campaign_by_date", fun backend a? =>
      match a? with
      | none => .error (typeErrorReading "campaignId")
      | some a =>
        runCall backend
          ⟨"GET", "/campaigns/" ++ pathStr a "campaignId" ++
              "/analytics-by-date",
            [("start_date", jgetV a "startDate"),
             ("end_date", jgetV a "endDate")], none⟩
          jsonStringify),
    ("analytics_sequence_performance", fun backend a? =>
      match a? with
      | none => .error (typeErrorReading "campaignId")
      | some a =>
        runCall backend
          ⟨"GET", "/campaigns/" ++ pathStr a "campaignId" ++
              "/sequence-analytics", [], none⟩
          jsonStringify) ]

/-- `handleAnalyticsTool`. -/
def handleAnalyticsTool (metricsOf : JValue → JValue)
    (backend : ApiCall → Except String JValue)
    (name : String) (a? : Option JObj) : ModResult :=
  match lookupFn (analyticsTable metricsOf) name with
  | some f => f backend a?
  | none => .error ("Unknown analytics tool: " ++ name)

/-- The reply-extraction of `reply_get_all`: keep the leads of
`data.data` with a truthy `last_reply` (an absent or non-array
`data.data` contributes nothing) and reshape each into the summary
object. -/
def formattedReplies (v : JValue) : List JValue :=
  let leads :=
    match jfield v "data" with
    | .arr xs => xs.filter (fun l => jTruthy (jfield l "last_reply"))
    | _ => []
  leads.map (fun l => JValue.obj
    [("lead_email", jfield l "email"),
     ("lead_name", .str (jstr (jfield l "first_name") ++ " " ++
        jstr (jfield l "last_name"))),
     ("company", jfield l "company_name"),
     ("reply_date", jfield l "last_reply_time"),
     ("reply_content", jfield l "last_reply"),
     ("lead_category", jfield l "lead_category"),
     ("lead_id", jfield l "id")])

/-- `tools/replies`: the three reply tools (no argument validation in
this module variant). -/
def replyTable : List (String × ((ApiCall → Except String JValue) → Option JObj → ModResult)) :=
  [ ("reply_get_all", fun backend a? =>
      match a? with
      | none => .error (typeErrorReading "campaignId")
      | some a =>
        runCall backend
          ⟨"GET", "/campaigns/" ++ pathStr a "campaignId" ++ "/leads",
            [("offset", jOr (jgetV a "offset") (.num 0)),
             ("limit", jOr (jgetV a "limit") (.num 100)),
             ("lead_status", .str "REPLIED")], none⟩
          (fun v => jsonStringify (.obj
            [("total_replies", jOr (jfield v "total_replied")
                (.num (formattedReplies v).length)),
             ("replies", .arr (formattedReplies v))]))),
    ("reply_get_message_history", fun backend a? =>
      match a? with
      | none => .error (typeErrorReading "campaignId")
      | some a =>
        runCall backend
          ⟨"GET", "/campaigns/" ++ pathStr a "campaignId" ++ "/leads/" ++
              pathStr a "leadId" ++ "/message-history", [], none⟩
          jsonStringify),
    ("reply_send", fun backend a? =>
      match a? with
      | none => .error (typeErrorReading "campaignId")
      | some a =>
        runCall backend
          ⟨"POST", "/campaigns/" ++ pathStr a "campaignId" ++ "/leads/" ++
              pathStr a "leadId" ++ "/reply", [],
            some (.obj [("message", jgetV a "message")])⟩
          (fun v => "Reply sent successfully. Response: " ++
            jsonStringify v)) ]

/-- `handleReplyTool`. -/
def handleReplyTool (backend : ApiCall → Except String JValue)
    (name : String) (a? : Option JObj) : ModResult :=
  match lookupFn replyTable name with
  | some f => f backend a?
  | none => .error ("Unknown reply tool: " ++ name)

/-- `tools/webhooks`: the three webhook tools. -/
def webhookTable : List (String × ((ApiCall → Except String JValue) → Option JObj → ModResult)) :=
  [ ("webhook_create", fun backend a? =>
      if !(jTruthy (optGetV a? "url")) || !(jTruthy (optGetV a? "events")) ||
          !(jIsArr (optGetV a? "events")) then
        .error "url and events array are required"
      else
        runCall backend
          ⟨"POST", "/webhooks", [],
            some (.obj [("url", optGetV a? "url"),
                        ("events", optGetV a? "events"),
                        ("campaignId", optGetV a? "campaignId")])⟩
          (fun v => "Webhook created successfully. Response: " ++
            jsonStringify v)),
    ("webhook_list", fun backend _ =>
      runCall backend ⟨"GET", "/webhooks", [], none⟩ jsonStringify),
    ("webhook_delete", fun backend a? =>
      if !(jTruthy (optGetV a? "webhookId")) then
        .error "webhookId is required"
      else
        runCall backend
          ⟨"DELETE", "/webhooks/" ++ jstr (optGetV a? "webhookId"), [], none⟩
          (fun v => "Webhook deleted successfully. Response: " ++
            jsonStringify v)) ]

/-- `handleWebhookTool`. -/
def handleWebhookTool (backend : ApiCall → Except String JValue)
    (name : String) (a? : Option JObj) : ModResult :=
  match lookupFn webhookTable name with
  | some f => f backend a?
  | none => .error ("Unknown webhook tool: " ++ name)

/-- The catch block of the `part_005` handler: an `McpError` is
rethrown unchanged; any other exception is wrapped into
`McpError(InternalError, "Tool execution failed: ...")` and thrown. -/
def mcpWrap (r : ModResult) : Except McpErr (ToolCallResult × List ApiCall) :=
  match r with
  | .ok x => .ok x
  | .error m => .error ⟨-32603, mcpMessage (-32603) ("Tool execution failed: " ++ m)⟩

/-- The call-tool handler of `part_005`: prefix dispatch to the five
modules; a name matching no prefix throws
`McpError(MethodNotFound, "Unknown tool: ...")`. Every error path
throws (the handler never returns an error-flagged result). -/
def part005Handler (metricsOf : JValue → JValue)
    (backend : ApiCall → Except String JValue)
    (name : String) (a? : Option JObj) :
    Except McpErr (ToolCallResult × List ApiCall) :=
  if name.startsWith "campaign_" then
    mcpWrap (handleCampaignTool backend name a?)
  else if name.startsWith "lead_" then
    mcpWrap (handleLeadTool backend name a?)
  else if name.startsWith "analytics_" then
    mcpWrap (handleAnalyticsTool metricsOf backend name a?)
  else if name.startsWith "reply_" then
    mcpWrap (handleReplyTool backend name a?)
  else if name.startsWith "webhook_" then
    mcpWrap (handleWebhookTool backend name a?)
  else .error ⟨-32601, mcpMessage (-32601) ("Unknown tool: " ++ name)⟩

/-- The combined tool registry (`allTools`) of `part_005`, in order. -/
def part005ToolNames : List String :=
  ["campaign_list", "campaign_get", "campaign_status_update",
   "lead_list_by_campaign", "lead_search_by_email", "lead_update_category",
   "lead_add_to_blocklist",
   "analytics_campaign_overview", "analytics_campaign_by_date",
   "analytics_sequence_performance",
   "reply_get_all", "reply_get_message_history", "reply_send",
   "webhook_create", "webhook_list", "webhook_delete"]

/-- The registry of `part_005` is exactly the names handled by the five
module switches. -/
theorem part005_names_cover (metricsOf : JValue → JValue) :
    campaignTable.map Prod.fst ++ leadTable.map Prod.fst ++
      (analyticsTable metricsOf).map Prod.fst ++ replyTable.map Prod.fst ++
      webhookTable.map Prod.fst = part005ToolNames := rfl

/-! ## Claim theorems -/

theorem mem_keys_of_jget_some {o : JObj} {k : String} {v : JValue}
    (h : jget o k = some v) : k ∈ o.map Prod.fst := by
  induction o with
  | nil => simp [jget] at h
  | cons kv rest ih =>
    by_cases hk : kv.1 = k
    · simp [hk]
    · simp only [jget, hk, ite_false] at h
      simp [ih h]

/-- C6: a success response with HTTP 204 or an empty body makes the
backend client return the empty-success value; no JSON parse error is
raised (the axios transform never parses an empty body). -/
theorem claim_C6_empty_body_success (parse : String → Option JValue)
    (endpoint : String) (r : HttpResponse)
    (h2xx : 200 ≤ r.status ∧ r.status < 300) (hbody : r.body = "") :
    indexRequest parse endpoint (.response r) = .ok emptySuccess := by
  simp [indexRequest, h2xx, axiosTransform, hbody, emptySuccess]

/-- C6 witness: a 204 No Content response with an empty body. -/
theorem claim_C6_witness :
    (200 ≤ (HttpResponse.mk 204 "No Content" "").status ∧
      (HttpResponse.mk 204 "No Content" "").status < 300) ∧
    (HttpResponse.mk 204 "No Content" "").body = "" ∧
    indexRequest (fun _ => none) "/campaigns/42"
      (.response (HttpResponse.mk 204 "No Content" "")) = .ok emptySuccess :=
  ⟨by norm_num, rfl,
    claim_C6_empty_body_success (fun _ => none) "/campaigns/42"
      (HttpResponse.mk 204 "No Content" "") (by norm_num) rfl⟩

/-- C7: every request of the `src/src/index.ts` client carries the
credential as the `api_key` query parameter for every method and data
object (the spread is overwritten by the credential), the headers never
carry it, and the enhanced-gateway `apiClient` instance likewise pins
`api_key` into its default query parameters, not its headers. -/
theorem claim_C7_api_key_query_parameter :
    (∀ (apiKey method : String) (data : JObj),
      jget (requestParams apiKey method data) "api_key" =
        some (.str apiKey)) ∧
    "api_key" ∉ indexRequestHeaders.map Prod.fst ∧
    "Authorization" ∉ indexRequestHeaders.map Prod.fst ∧
    (∀ apiKey : String,
      jget (apiClientDefaultParams apiKey) "api_key" = some (.str apiKey)) ∧
    "api_key" ∉ apiClientHeaders.map Prod.fst ∧
    "Authorization" ∉ apiClientHeaders.map Prod.fst := by
  refine ⟨?_, by decide, by decide, ?_, by decide, by decide⟩
  · intro apiKey method data
    unfold requestParams
    by_cases hm : method = "GET"
    · simp only [hm, if_pos]
      exact jget_jset_self data "api_key" (.str apiKey)
    · simp [hm, jget]
  · intro apiKey
    simp [apiClientDefaultParams, jget]

/-- The list-tools handler of `src/src/index.ts`: it reads nothing but
the immutable module-level catalog and touches no state. -/
def listToolsHandler {σ : Type} (s : σ) : σ × List (String × List String) :=
  (s, indexToolRegistry)

/-- C9: the list-tools operation is side-effect-free (the server state
is returned untouched) and deterministic: any two invocations in the
same process return the same descriptor sequence in the same order. -/
theorem claim_C9_listTools_deterministic :
    ∀ (σ : Type) (s t : σ),
      (listToolsHandler s).1 = s ∧
      (listToolsHandler s).2 = (listToolsHandler t).2 ∧
      (listToolsHandler s).2 = indexToolRegistry :=
  fun _ _ _ => ⟨rfl, rfl, rfl⟩

/-- C10: in the diagnostic `errorDetails` object the `api_key` entry of
the `params` field is the literal `[REDACTED]` for GET and non-GET
alike, and the configured key value never appears among the `params`
values (given it does not occur in the caller data and is not itself
the literal `[REDACTED]`). -/
theorem claim_C10_error_details_redaction (method : String) (data : JObj)
    (key : String) (hkey : JValue.str key ∉ data.map Prod.snd)
    (hne : key ≠ "[REDACTED]") :
    jget (redactedParams method data) "api_key" =
      some (.str "[REDACTED]") ∧
    JValue.str key ∉ (redactedParams method data).map Prod.snd := by
  unfold redactedParams
  by_cases hm : method = "GET"
  · simp only [hm, if_pos]
    refine ⟨jget_jset_self data "api_key" (.str "[REDACTED]"), ?_⟩
    intro hmem
    rcases mem_values_jset hmem with h1 | h2
    · exact hne (by injection h1)
    · exact hkey h2
  · simp only [hm, ite_false]
    refine ⟨by simp [jget], ?_⟩
    intro hmem
    simp only [List.map_cons, List.map_nil, List.mem_singleton] at hmem
    exact hne (by injection hmem)

/-- C10 witness: a GET failure over caller data not containing the
configured key. -/
theorem claim_C10_witness :
    JValue.str "sk-secret" ∉
      ([("campaign_id", JValue.str "42")] : JObj).map Prod.snd ∧
    "sk-secret" ≠ "[REDACTED]" ∧
    jget (redactedParams "GET" [("campaign_id", JValue.str "42")]) "api_key" =
      some (.str "[REDACTED]") ∧
    JValue.str "sk-secret" ∉
      (redactedParams "GET" [("campaign_id", JValue.str "42")]).map Prod.snd := by
  have h1 : JValue.str "sk-secret" ∉
      ([("campaign_id", JValue.str "42")] : JObj).map Prod.snd := by
    simp
  have h2 : "sk-secret" ≠ "[REDACTED]" := by decide
  obtain ⟨hA, hB⟩ :=
    claim_C10_error_details_redaction "GET" [("campaign_id", JValue.str "42")]
      "sk-secret" h1 h2
  exact ⟨h1, h2, hA, hB⟩

theorem containsStr_appendl {s sub : String} (a : String)
    (h : containsStr s sub) : containsStr (a ++ s) sub := by
  obtain ⟨p, q, rfl⟩ := h
  exact ⟨a ++ p, q, by simp [String.append_assoc]⟩

theorem containsStr_self (s : String) : containsStr s s :=
  ⟨"", "", by simp⟩

/-- C8 as stated is false on `src/src/index.ts`: the `update_campaign`
case forwards the whole argument object as the request body, so the
`campaign_id` path parameter is part of the body keys at this concrete
input. -/
theorem claim_C8_counterexample :
    "campaign_id" ∈
      (updateCampaignCase
        [("campaign_id", JValue.str "42"), ("name", JValue.str "Q2")]).data.map
        Prod.fst := by
  simp [updateCampaignCase]

/-- C8 amended: the enhanced gateway separates the path parameter (its
schedule-update case posts a copy of the arguments with `campaign_id`
deleted, leaving the original object unmutated), while the
`update_campaign` case of `src/src/index.ts` forwards the argument
object itself as the body, so a present `campaign_id` is included in
the body. -/
theorem claim_C8_amended :
    lookupFn part006Table "smartlead_update_campaign_schedule" =
      some updateCampaignScheduleTool ∧
    (∀ a : JObj,
      (updateCampaignScheduleTool.mkCall a).body =
        some (.obj (jdelete a "campaign_id")) ∧
      "campaign_id" ∉ (jdelete a "campaign_id").map Prod.fst) ∧
    lookupFn indexTable "update_campaign" = some updateCampaignCase ∧
    (∀ (p : JObj) (v : JValue), jget p "campaign_id" = some v →
      (updateCampaignCase p).data = p ∧
      "campaign_id" ∈ (updateCampaignCase p).data.map Prod.fst) := by
  refine ⟨rfl, ?_, rfl, ?_⟩
  · intro a
    exact ⟨rfl, not_mem_keys_jdelete a "campaign_id"⟩
  · intro p v h
    exact ⟨rfl, mem_keys_of_jget_some h⟩

/-- C8 witness: a concrete argument object carrying `campaign_id`. -/
theorem claim_C8_witness :
    jget [("campaign_id", JValue.str "42")] "campaign_id" =
      some (.str "42") ∧
    (updateCampaignCase [("campaign_id", JValue.str "42")]).data =
      [("campaign_id", JValue.str "42")] ∧
    "campaign_id" ∈
      (updateCampaignCase [("campaign_id", JValue.str "42")]).data.map
        Prod.fst := by
  have h : jget [("campaign_id", JValue.str "42")] "campaign_id" =
      some (.str "42") := rfl
  obtain ⟨hA, hB⟩ :=
    claim_C8_amended.2.2.2 [("campaign_id", JValue.str "42")] (.str "42") h
  exact ⟨h, hA, hB⟩

/-- C2 as stated is false on `src/src/index.ts`: calling `get_campaign`
with an argument object omitting the required `campaign_id` performs
one backend invocation (with the string `undefined` in the path) and
returns no error flag. -/
theorem claim_C2_counterexample :
    indexRequiredOf "get_campaign" = some ["campaign_id"] ∧
    jget ([] : JObj) "campaign_id" = none ∧
    (indexHandler (fun _ => .ok .null) "get_campaign" (some [])).2 =
      [⟨"/campaigns/undefined", "GET", []⟩] ∧
    (indexHandler (fun _ => .ok .null) "get_campaign" (some [])).1.isError =
      false :=
  ⟨rfl, rfl, rfl, rfl⟩

/-- C2 amended: in the enhanced gateway every tool whose argument
object omits a required property is rejected by its type guard with an
`isError` result and zero upstream invocations; the handler of
`src/src/index.ts` performs no presence validation and issues its one
backend invocation for every known tool regardless of the arguments. -/
theorem claim_C2_amended :
    (∀ (upstream : ApiCall → Except UpstreamError JValue) (name : String)
        (t : P6Tool) (args : JObj) (r : String),
      lookupFn part006Table name = some t → r ∈ t.required →
      jget args r = none →
      (part006Handler upstream name (some args)).1.isError = true ∧
      (part006Handler upstream name (some args)).2 = []) ∧
    (∀ (backend : IndexCall → Except String JValue) (name : String)
        (mk : JObj → IndexCall) (params : JObj),
      lookupFn indexTable name = some mk →
      (indexHandler backend name (some params)).2 = [mk params]) := by
  constructor
  · intro upstream name t args r hlook hr hnone
    have hg : t.guard args = false :=
      part006_guard_covers_required (name, t) (lookupFn_mem hlook) args r hr
        hnone
    constructor <;> simp [part006Handler, hlook, hg]
  · intro backend name mk params hlook
    cases hb : backend (mk params) <;> simp [indexHandler, hlook, hb]

/-- C2 witness: the schedule-update tool of the enhanced gateway with
an empty argument object. -/
theorem claim_C2_witness :
    lookupFn part006Table "smartlead_update_campaign_schedule" =
      some updateCampaignScheduleTool ∧
    "campaign_id" ∈ updateCampaignScheduleTool.required ∧
    jget ([] : JObj) "campaign_id" = none ∧
    (part006Handler (fun _ => .ok .null) "smartlead_update_campaign_schedule"
        (some [])).1.isError = true ∧
    (part006Handler (fun _ => .ok .null) "smartlead_update_campaign_schedule"
        (some [])).2 = [] := by
  have h1 : lookupFn part006Table "smartlead_update_campaign_schedule" =
      some updateCampaignScheduleTool := rfl
  have h2 : "campaign_id" ∈ updateCampaignScheduleTool.required := by
    simp [updateCampaignScheduleTool]
  have h3 : jget ([] : JObj) "campaign_id" = none := rfl
  obtain ⟨hA, hB⟩ := claim_C2_amended.1 (fun _ => .ok .null)
    "smartlead_update_campaign_schedule" updateCampaignScheduleTool [] 
    "campaign_id" h1 h2 h3
  exact ⟨h1, h2, h3, hA, hB⟩

/-- C1 as stated is false on `src/src/index.ts`: for an unknown tool
the handler does return a result containing the tool name without
throwing, but its `isError` field is never set (it reads as `false`,
not the required `true`). -/
theorem claim_C1_counterexample :
    "nonexistent_tool" ∉ indexToolNames ∧
    (indexHandler (fun _ => .ok .null) "nonexistent_tool"
        (some [])).1.contentTexts =
      ["Error: Unknown tool: nonexistent_tool"] ∧
    (indexHandler (fun _ => .ok .null) "nonexistent_tool"
        (some [])).1.isError = false :=
  ⟨by decide, rfl, rfl⟩

/-- C1 amended, per cited variant: for every tool name outside the
registry, (a) the `src/src/index.ts` handler never throws and returns a
message containing the name, but without `isError = true`; (b) the
enhanced gateway handler never throws and returns `isError = true` with
a message containing the name; (c) the modular `part_005` handler
instead propagates a thrown `McpError` whose message contains the
name. -/
theorem claim_C1_amended :
    (∀ (backend : IndexCall → Except String JValue) (name : String)
        (args : JObj),
      name ∉ indexToolNames →
      indexHandler backend name (some args) =
        (⟨["Error: Unknown tool: " ++ name], false⟩, []) ∧
      containsStr ("Error: Unknown tool: " ++ name) name) ∧
    (∀ (upstream : ApiCall → Except UpstreamError JValue) (name : String)
        (args? : Option JObj),
      name ∉ part006ToolNames →
      part006Handler upstream name args? =
        (⟨[mcpMessage (-32601) ("Unknown tool: " ++ name)], true⟩, []) ∧
      containsStr (mcpMessage (-32601) ("Unknown tool: " ++ name)) name) ∧
    (∀ (metricsOf : JValue → JValue)
        (backend : ApiCall → Except String JValue) (name : String)
        (args? : Option JObj),
      name ∉ part005ToolNames →
      ∃ err : McpErr,
        part005Handler metricsOf backend name args? = .error err ∧
        containsStr err.msg name) := by
  refine ⟨?_, ?_, ?_⟩
  · intro backend name args h
    have hnm : name ∉ indexTable.map Prod.fst := by
      rw [indexTable_names_eq]
      exact h
    have hlook : lookupFn indexTable name = none :=
      (lookupFn_eq_none_iff _ _).mpr hnm
    refine ⟨by simp [indexHandler, hlook], ?_⟩
    exact ⟨"Error: Unknown tool: ", "", by simp⟩
  · intro upstream name args? h
    have hlook : lookupFn part006Table name = none :=
      (lookupFn_eq_none_iff _ _).mpr h
    refine ⟨by simp [part006Handler, hlook], ?_⟩
    rw [mcpMessage]
    exact containsStr_appendl _ (containsStr_appendl _ (containsStr_self name))
  · intro metricsOf backend name args? h
    have hcov := part005_names_cover metricsOf
    rw [← hcov] at h
    simp only [List.mem_append, not_or] at h
    obtain ⟨⟨⟨⟨h1, h2⟩, h3⟩, h4⟩, h5⟩ := h
    by_cases hp1 : name.startsWith "campaign_" = true
    · refine ⟨⟨-32603, mcpMessage (-32603) ("Tool execution failed: " ++
          ("Unknown campaign tool: " ++ name))⟩, ?_, ?_⟩
      · simp [part005Handler, hp1, handleCampaignTool,
          (lookupFn_eq_none_iff campaignTable name).mpr h1, mcpWrap]
      · rw [mcpMessage]
        exact containsStr_appendl _ (containsStr_appendl _ (containsStr_appendl _ (containsStr_self name)))
    · by_cases hp2 : name.startsWith "lead_" = true
      · refine ⟨⟨-32603, mcpMessage (-32603) ("Tool execution failed: " ++
            ("Unknown lead tool: " ++ name))⟩, ?_, ?_⟩
        · simp [part005Handler, hp1, hp2, handleLeadTool,
            (lookupFn_eq_none_iff leadTable name).mpr h2, mcpWrap]
        · rw [mcpMessage]
          exact containsStr_appendl _ (containsStr_appendl _ (containsStr_appendl _ (containsStr_self name)))
      · by_cases hp3 : name.startsWith "analytics_" = true
        · refine ⟨⟨-32603, mcpMessage (-32603) ("Tool execution failed: " ++
              ("Unknown analytics tool: " ++ name))⟩, ?_, ?_⟩
          · simp [part005Handler, hp1, hp2, hp3, handleAnalyticsTool,
              (lookupFn_eq_none_iff (analyticsTable metricsOf) name).mpr h3,
              mcpWrap]
          · rw [mcpMessage]
            exact containsStr_appendl _ (containsStr_appendl _ (containsStr_appendl _ (containsStr_self name)))
        · by_cases hp4 : name.startsWith "reply_" = true
          · refine ⟨⟨-32603, mcpMessage (-32603) ("Tool execution failed: " ++
                ("Unknown reply tool: " ++ name))⟩, ?_, ?_⟩
            · simp [part005Handler, hp1, hp2, hp3, hp4, handleReplyTool,
                (lookupFn_eq_none_iff replyTable name).mpr h4, mcpWrap]
            · rw [mcpMessage]
              exact containsStr_appendl _ (containsStr_appendl _ (containsStr_appendl _ (containsStr_self name)))
          · by_cases hp5 : name.startsWith "webhook_" = true
            · refine ⟨⟨-32603, mcpMessage (-32603) ("Tool execution failed: " ++
                  ("Unknown webhook tool: " ++ name))⟩, ?_, ?_⟩
              · simp [part005Handler, hp1, hp2, hp3, hp4, hp5,
                  handleWebhookTool,
                  (lookupFn_eq_none_iff webhookTable name).mpr h5, mcpWrap]
              · rw [mcpMessage]
                exact containsStr_appendl _ (containsStr_appendl _ (containsStr_appendl _ (containsStr_self name)))
            · refine ⟨⟨-32601, mcpMessage (-32601) ("Unknown tool: " ++ name)⟩,
                ?_, ?_⟩
              · simp [part005Handler, hp1, hp2, hp3, hp4, hp5]
              · rw [mcpMessage]
                exact containsStr_appendl _ (containsStr_appendl _ (containsStr_self name))

/-- C1 witness: the enhanced gateway truly returns `isError = true`
with the name for a tool outside its registry. -/
theorem claim_C1_witness :
    "bogus_tool" ∉ part006ToolNames ∧
    part006Handler (fun _ => .ok .null) "bogus_tool" (some []) =
      (⟨[mcpMessage (-32601) ("Unknown tool: " ++ "bogus_tool")], true⟩, []) := by
  have h : "bogus_tool" ∉ part006ToolNames := by decide
  exact ⟨h,
    (claim_C1_amended.2.1 (fun _ => .ok .null) "bogus_tool" (some []) h).1⟩

end SmartleadGateway
